import Mathlib

/-!
Shallow embedding of the dialogue state machine of the voice-assistant
agent (apps/api/src/agent): the LangGraph node functions and routing
functions, modelled as pure state transformers over an explicit record of
the agent state.  External capabilities (contact lookup, the LLM question
and reply generators, skill execution, process launch) are passed in as
function parameters, matching the collaborator boundaries the code calls
through; everything else is translated directly from the Python source.
-/

namespace LivvOS

/-- Conversation message roles, from `agent/state.py` (`Message.role`). -/
inductive Role where
  | user
  | assistant
  | system
  deriving DecidableEq, Repr

/-- One conversation message (`agent/state.py`, `Message`). -/
structure Message where
  role : Role
  content : String
  deriving DecidableEq, Repr

/-- A contact record as returned by the contact lookup capability
(`resolve_entities.lookup_contacts`); the code reads `c.get("name", "")`. -/
structure Contact where
  id : String
  name : String
  deriving DecidableEq, Repr

/-- A slot value in the merged mapping handed to skills: literal strings
from `entities`, or resolved `Contact`s from `resolved_entities`. -/
inductive Value where
  | str : String → Value
  | contact : Contact → Value
  deriving DecidableEq, Repr

/-- One disambiguation option record appended by `resolve_entities`
(keys `entity`, `query`, `matches`, `message`; the dict key `matches` is
spelled `matchesList` because `matches` is reserved in Lean). -/
structure DisambigOption where
  entity : String
  query : String
  matchesList : List Contact
  message : String
  deriving DecidableEq, Repr

/-- The classifier guess (`agent/state.py`, `IntentData`; total=False, so
every field carries the default used by the corresponding `.get`). -/
structure IntentData where
  intent : String := "unknown"
  confidence : Rat := 0
  entities : List (String × String) := []
  missing : List String := []
  reasoning : String := ""
  errText : String := ""
  deriving DecidableEq, Repr

/-- The task-status enumeration (`agent/state.py`, `task_status`). -/
inductive TaskStatus where
  | IDLE
  | INTENT_DETECTED
  | NEEDS_CLARIFICATION
  | WAITING_USER_INPUT
  | READY_TO_EXECUTE
  | EXECUTING
  | COMPLETED
  | FAILED
  | CANCELLED
  deriving DecidableEq, Repr

/-- A skill result dict: `success` (absent key behaves as false),
`message`, `error` (absent modelled as empty string). -/
structure ActionResult where
  success : Bool := false
  message : String := ""
  errMsg : String := ""
  deriving DecidableEq, Repr

/-- The agent state threaded through the graph (`agent/state.py`,
`AgentState`), with Python dicts as ordered association lists. -/
structure AgentState where
  user_id : String := ""
  session_id : String := ""
  messages : List Message := []
  current_input : String := ""
  input_language : String := "es"
  current_intent : Option IntentData := none
  task_status : TaskStatus := .IDLE
  entities : List (String × String) := []
  missing_entities : List String := []
  unresolved_entities : List String := []
  resolved_entities : List (String × Contact) := []
  needs_user_disambiguation : Bool := false
  disambiguation_options : List DisambigOption := []
  clarification_count : Nat := 0
  last_clarification : String := ""
  max_clarifications : Nat := 3
  action_result : Option ActionResult := none
  action_error : Option String := none
  response_text : String := ""
  should_speak : Bool := true
  turn_count : Nat := 0
  deriving DecidableEq, Repr

/-- Python dict assignment `m[k] = v`: update in place if the key exists,
else append at the end. -/
def dictInsert {α : Type} (m : List (String × α)) (k : String) (v : α) :
    List (String × α) :=
  if m.any (fun p => p.1 == k) then
    m.map (fun p => if p.1 == k then (k, v) else p)
  else m ++ [(k, v)]

/-- `state.get("current_intent", {}).get("intent", "unknown")`. -/
def intentOf (s : AgentState) : String :=
  match s.current_intent with
  | some d => d.intent
  | none => "unknown"

/-- REQUIRED_ENTITIES table from `check_entities.py`. -/
def REQUIRED_ENTITIES : List (String × List String) :=
  [("send_message", ["recipient", "message_content"]),
   ("set_reminder", ["reminder_text", "datetime"]),
   ("create_note", ["note_content"]),
   ("open_app", ["app_name"]),
   ("open_url", ["url"]),
   ("search_web", ["query"]),
   ("set_timer", ["duration"])]

/-- OPTIONAL_ENTITIES table from `check_entities.py` (not consulted by the
node's algorithm). -/
def OPTIONAL_ENTITIES : List (String × List String) :=
  [("send_message", ["platform"]),
   ("set_reminder", ["recurrence"]),
   ("create_note", ["title", "tags"])]

/-- The `check_entities` node: `missing` = required slots absent or empty,
in schema order; `unresolved` = entries whose key is "recipient" (the
code's guard `isinstance(value, str)` always holds for string slot
values, so no emptiness test is applied). -/
def check_entities (s : AgentState) : AgentState :=
  let intent := intentOf s
  let required := (REQUIRED_ENTITIES.lookup intent).getD []
  let missing := required.filter (fun e => ((s.entities.lookup e).getD "") = "")
  let unresolved := (s.entities.filter (fun p => p.1 = "recipient")).map Prod.fst
  if missing ≠ [] then
    { s with missing_entities := missing,
             unresolved_entities := unresolved,
             task_status := .NEEDS_CLARIFICATION }
  else if unresolved ≠ [] then
    { s with missing_entities := [],
             unresolved_entities := unresolved,
             task_status := .NEEDS_CLARIFICATION }
  else
    { s with missing_entities := [],
             unresolved_entities := [],
             task_status := .READY_TO_EXECUTE }

/-- `route_after_intent` from `graph.py` (string labels as in the code). -/
def route_after_intent (s : AgentState) : String :=
  let intent_type := intentOf s
  if intent_type = "cancel" then "cancel"
  else if intent_type = "confirm" then "confirm"
  else if intent_type = "open_app" then "system_control"
  else if intent_type = "general_query" ∨ intent_type = "unknown" ∨ intent_type = "greeting"
    then "respond"
  else "check_entities"

/-- `route_after_entity_check` from `graph.py`: unresolved is tested
before missing. -/
def route_after_entity_check (s : AgentState) : String :=
  if s.unresolved_entities ≠ [] then "resolve"
  else if s.missing_entities ≠ [] then "clarify"
  else "execute"

/-- `route_after_resolve` from `graph.py`. -/
def route_after_resolve (s : AgentState) : String :=
  if s.needs_user_disambiguation then "clarify" else "execute"

/-- The comma join `", ".join([c.get("name", "") for c in contacts])`. -/
def joinNames (cs : List Contact) : String :=
  String.intercalate ", " (cs.map Contact.name)

/-- The zero-candidate prompt built in `resolve_entities`. -/
def notFoundMsg (v : String) : String :=
  "No encontré ningún contacto llamado \x27" ++ v ++ "\x27. ¿A quién te referís?"

/-- The several-candidates prompt built in `resolve_entities`. -/
def multiMsg (cs : List Contact) : String :=
  "Encontré varios contactos: " ++ joinNames cs ++ ". ¿A cuál te referís?"

/-- Loop accumulator of `resolve_entities` (the local `resolved`,
`disambiguation_options`, `needs_disambiguation`). -/
structure ResolveAcc where
  resolved : List (String × Contact)
  options : List DisambigOption
  needs : Bool
  deriving DecidableEq, Repr

/-- One iteration of the `for entity_name in unresolved` loop in
`resolve_entities`, parametrised by the contact lookup capability. -/
def resolveStep (lookupContacts : String → String → List Contact) (uid : String)
    (entities : List (String × String)) (acc : ResolveAcc) (entity_name : String) :
    ResolveAcc :=
  let entity_value := (entities.lookup entity_name).getD ""
  if entity_name = "recipient" ∧ entity_value ≠ "" then
    match lookupContacts uid entity_value with
    | [] =>
      { acc with needs := true,
                 options := acc.options ++
                   [⟨entity_name, entity_value, [], notFoundMsg entity_value⟩] }
    | [c] =>
      { acc with resolved := dictInsert acc.resolved entity_name c }
    | cs =>
      { acc with needs := true,
                 options := acc.options ++
                   [⟨entity_name, entity_value, cs, multiMsg cs⟩] }
  else acc

/-- The `resolve_entities` node, parametrised by the contact lookup
capability (`lookup_contacts`; the in-repo placeholder returns `[]`). -/
def resolve_entities (lookupContacts : String → String → List Contact)
    (s : AgentState) : AgentState :=
  if s.unresolved_entities = [] then
    { s with needs_user_disambiguation := false }
  else
    let acc := s.unresolved_entities.foldl
      (resolveStep lookupContacts s.user_id s.entities)
      ⟨s.resolved_entities, [], false⟩
    { s with resolved_entities := acc.resolved,
             needs_user_disambiguation := acc.needs,
             disambiguation_options := acc.options,
             unresolved_entities :=
               if acc.needs then s.unresolved_entities else [] }

/-- The in-repo placeholder `lookup_contacts` (returns no contacts). -/
def lookup_contacts (_uid : String) (_query : String) : List Contact := []

/-- CLARIFICATION_TEMPLATES table from `clarify.py`. -/
def CLARIFICATION_TEMPLATES : List (String × String) :=
  [("recipient", "¿A quién le querés enviar el mensaje?"),
   ("message_content", "¿Qué querés que diga el mensaje?"),
   ("platform", "¿Por qué plataforma? ¿WhatsApp, Telegram, o SMS?"),
   ("reminder_text", "¿Qué querés que te recuerde?"),
   ("datetime", "¿Cuándo querés que te avise?"),
   ("note_content", "¿Qué querés anotar?"),
   ("app_name", "¿Qué aplicación querés abrir?"),
   ("url", "¿A qué sitio querés ir?"),
   ("query", "¿Qué querés buscar?"),
   ("duration", "¿De cuánto tiempo el temporizador?")]

/-- The fixed restart message `clarify` emits once the counter is
exhausted. -/
def RESTART_MESSAGE : String :=
  "Parece que estamos teniendo problemas para entendernos. ¿Podés repetir todo desde el principio?"

/-- The `clarify` node, parametrised by the LLM question generator
(the try/except around the OpenAI call: `none` models an exception,
`some t` the reply whose content the code strips). -/
def clarify (genQ : String → List (String × String) → String → Option String)
    (s : AgentState) : AgentState :=
  if s.clarification_count ≥ s.max_clarifications then
    { s with response_text := RESTART_MESSAGE,
             task_status := .CANCELLED,
             should_speak := true,
             messages := s.messages ++ [⟨.assistant, RESTART_MESSAGE⟩] }
  else
    let text0 :=
      match s.disambiguation_options with
      | opt :: _ => opt.message
      | [] =>
        match s.missing_entities with
        | e :: _ =>
          match CLARIFICATION_TEMPLATES.lookup e with
          | some t => t
          | none =>
            let intent := match s.current_intent with
              | some d => d.intent
              | none => ""
            match genQ intent s.entities e with
            | some t => t.trim
            | none => "¿Podrías darme más información sobre " ++ e ++ "?"
        | [] => ""
    let text := if text0 = "" then "¿Podrías darme más detalles?" else text0
    { s with response_text := text,
             last_clarification := text,
             clarification_count := s.clarification_count + 1,
             task_status := .WAITING_USER_INPUT,
             should_speak := true,
             messages := s.messages ++ [⟨.assistant, text⟩] }

/-- The dict merge `{**entities, **resolved_entities}` in
`execute_action`: keys of the first dict in order, values overridden by
the second dict, then new keys of the second dict appended in order. -/
def mergeEntities (es : List (String × String)) (rs : List (String × Contact)) :
    List (String × Value) :=
  es.map (fun p => (p.1,
    match rs.lookup p.1 with
    | some c => Value.contact c
    | none => Value.str p.2)) ++
  (rs.filter (fun p => !(es.any (fun q => q.1 == p.1)))).map
    (fun p => (p.1, Value.contact p.2))

/-- The `execute_action` node, parametrised by the skill registry
(`get_skill`) where a skill may throw (`Except.error`) or return a
result dict. -/
def execute_action
    (get_skill : String → Option (String → List (String × Value) → Except String ActionResult))
    (s : AgentState) : AgentState :=
  let intent := intentOf s
  let entities := mergeEntities s.entities s.resolved_entities
  match get_skill intent with
  | none =>
    { s with action_result := some { success := false, errMsg := "No skill for intent: " ++ intent },
             action_error := some ("No handler for intent: " ++ intent),
             task_status := .FAILED }
  | some skill =>
    match skill s.user_id entities with
    | .ok result =>
      { s with action_result := some result,
               action_error := none,
               task_status := if result.success then .COMPLETED else .FAILED }
    | .error e =>
      { s with action_result := some { success := false, errMsg := e },
               action_error := some e,
               task_status := .FAILED }

/-- The fixed cancellation acknowledgement emitted by `cancel_task`. -/
def CANCEL_MESSAGE : String := "Dale, cancelado. ¿Algo más?"

/-- The `cancel_task` node: clears intent, entities, missing list and the
clarification counter, sets CANCELLED and the fixed acknowledgement. -/
def cancel_task (s : AgentState) : AgentState :=
  { s with current_intent := none,
           task_status := .CANCELLED,
           entities := [],
           missing_entities := [],
           clarification_count := 0,
           response_text := CANCEL_MESSAGE,
           should_speak := true,
           messages := s.messages ++ [⟨.assistant, CANCEL_MESSAGE⟩] }

/-- The `confirm_action` node. -/
def confirm_action (s : AgentState) : AgentState :=
  { s with task_status := .READY_TO_EXECUTE }

/-- Per-intent canned success phrases from `respond.py`. -/
def SUCCESS_RESPONSES : List (String × String) :=
  [("send_message", "Listo, mensaje enviado."),
   ("set_reminder", "Dale, te voy a recordar."),
   ("create_note", "Nota guardada."),
   ("open_app", "Abriendo..."),
   ("open_url", "Abriendo la página..."),
   ("search_web", "Acá está lo que encontré."),
   ("set_timer", "Temporizador activado.")]

/-- `generate_success_response` from `respond.py`: the skill-provided
message wins when non-empty, else the per-intent phrase, else a generic
"Listo.". -/
def generate_success_response (intent : String) (result : ActionResult) : String :=
  let base := (SUCCESS_RESPONSES.lookup intent).getD "Listo."
  if result.message ≠ "" then result.message else base

/-- The canned reply when the conversational LLM call fails. -/
def CONV_ERROR_MESSAGE : String :=
  "Perdón, tuve un problema para procesar eso. ¿Podrías repetirlo?"

/-- `generate_conversational_response` from `respond.py`, parametrised by
the conversational LLM call (`none` models an exception). -/
def generate_conversational_response (conv : String → List Message → Option String)
    (user_input : String) (messages : List Message) : String :=
  match conv user_input messages with
  | some t => t.trim
  | none => CONV_ERROR_MESSAGE

/-- The `generate_response` (Compose) node: an already-set response text
passes through unchanged; otherwise branch on status and intent. -/
def generate_response (conv : String → List Message → Option String)
    (s : AgentState) : AgentState :=
  if s.response_text ≠ "" then s
  else
    let intent := intentOf s
    let response_text :=
      if s.task_status = .COMPLETED ∧ s.action_result.isSome then
        generate_success_response intent (s.action_result.getD {})
      else if s.task_status = .FAILED then
        let error_msg := match s.action_error with
          | some e => if e = "" then "Algo salió mal" else e
          | none => "Algo salió mal"
        "Ups, hubo un problema: " ++ error_msg ++ ". ¿Querés que lo intente de nuevo?"
      else if s.task_status = .CANCELLED then
        "Dale, cancelado. ¿En qué más te puedo ayudar?"
      else if intent = "general_query" ∨ intent = "unknown" then
        generate_conversational_response conv s.current_input s.messages
      else if intent = "greeting" then
        "¡Hola! ¿En qué te puedo ayudar?"
      else "Listo, ¿algo más?"
    { s with response_text := response_text,
             should_speak := true,
             messages := s.messages ++ [⟨.assistant, response_text⟩] }

/-- Outcome of the classification call in `detect_intent`: a parsed
guess, a JSON decode failure, or a raised service error. -/
inductive ClassifyOutcome where
  | success : IntentData → ClassifyOutcome
  | parseFailure : ClassifyOutcome
  | serviceError : String → ClassifyOutcome

/-- The `detect_intent` node, with the classify-and-parse step supplied
as an outcome. -/
def detect_intent (outcome : ClassifyOutcome) (s : AgentState) : AgentState :=
  if s.current_input = "" then
    { s with current_intent := some { intent := "unknown", confidence := 0, entities := [] },
             task_status := .IDLE }
  else
    match outcome with
    | .success g =>
      { s with current_intent := some g,
               entities := g.entities,
               missing_entities := g.missing,
               task_status := .INTENT_DETECTED }
    | .parseFailure =>
      { s with current_intent := some { intent := "general_query", confidence := 1/2,
                                        entities := [],
                                        reasoning := "Could not parse intent response" },
               task_status := .INTENT_DETECTED }
    | .serviceError e =>
      { s with current_intent := some { intent := "unknown", confidence := 0,
                                        entities := [], errText := e },
               task_status := .FAILED,
               action_error := some e }

/-- APP_MAP from `system_control.py` (app name → shell command). -/
def APP_MAP : List (String × String) :=
  [("whatsapp", "start whatsapp:"),
   ("spotify", "start spotify:"),
   ("chrome", "start chrome"),
   ("browser", "start http://google.com"),
   ("calculator", "calc"),
   ("notepad", "notepad"),
   ("excel", "start excel"),
   ("word", "start winword"),
   ("calculadora", "calc"),
   ("bloc de notas", "notepad"),
   ("notas", "notepad"),
   ("navegador", "start http://google.com"),
   ("explorador", "explorer")]

/-- The fallback reply of `execute_system_command` when no launch message
was produced. -/
def NO_APP_MESSAGE : String :=
  "No entendí qué aplicación querés abrir. Decime el nombre de la app."

/-- The `result_msg` computed by the branches of `execute_system_command`
before the final fallback. -/
def systemResultMsg (launch : String → Except String Unit) (s : AgentState) : String :=
  let intent_type := match s.current_intent with
    | some d => d.intent
    | none => ""
  let ents := match s.current_intent with
    | some d => if d.entities = [] then s.entities else d.entities
    | none => s.entities
  let app_name := ((ents.lookup "app_name").getD "").toLower.trim
  if intent_type = "open_app" ∧ app_name ≠ "" then
    match APP_MAP.lookup app_name with
    | some cmd =>
      match launch cmd with
      | .ok _ => "Abriendo " ++ app_name ++ "..."
      | .error _ => "Tuve un error al intentar abrir " ++ app_name ++ "."
    | none =>
      match launch ("start " ++ app_name) with
      | .ok _ => "Intentando abrir " ++ app_name ++ "..."
      | .error _ => "No sé cómo abrir \x27" ++ app_name ++ "\x27 todavía."
  else ""

/-- The `execute_system_command` node (`system_control.py`), with
`subprocess.Popen` modelled as a launch capability that may throw. -/
def execute_system_command (launch : String → Except String Unit)
    (s : AgentState) : AgentState :=
  let final_msg := if systemResultMsg launch s = "" then NO_APP_MESSAGE
                   else systemResultMsg launch s
  { s with response_text := final_msg,
           task_status := .COMPLETED,
           action_result := some { success := false, message := final_msg },
           messages := s.messages ++ [⟨.assistant, final_msg⟩] }

/-! Helper lemmas on association-list lookup, shared by the claim
theorems below. -/

theorem lookup_append {α : Type} (k : String) (l₁ l₂ : List (String × α)) :
    (l₁ ++ l₂).lookup k = (l₁.lookup k).or (l₂.lookup k) := by
  induction l₁ with
  | nil => rfl
  | cons p t ih =>
    rcases p with ⟨a, b⟩
    cases hk : k == a <;> simp [List.lookup, hk, ih]

theorem lookup_none_of_any_eq_false {α : Type} (k : String) (m : List (String × α))
    (h : m.any (fun p => p.1 == k) = false) : m.lookup k = none := by
  induction m with
  | nil => rfl
  | cons p t ih =>
    rcases p with ⟨a, b⟩
    simp only [List.any_cons, Bool.or_eq_false_iff] at h
    have hk : (k == a) = false := by
      have := h.1
      simp only [beq_eq_false_iff_ne] at this ⊢
      exact fun hka => this hka.symm
    simp [List.lookup, hk, ih h.2]

theorem any_eq_false_of_lookup_none {α : Type} (k : String) (m : List (String × α))
    (h : m.lookup k = none) : m.any (fun p => p.1 == k) = false := by
  induction m with
  | nil => rfl
  | cons p t ih =>
    rcases p with ⟨a, b⟩
    cases hk : k == a
    · simp only [List.lookup, hk] at h
      have hk2 : (a == k) = false := by
        simp only [beq_eq_false_iff_ne] at hk ⊢
        exact fun hka => hk hka.symm
      simp [List.any_cons, hk2, ih h]
    · simp [List.lookup, hk] at h

theorem lookup_dictInsert {α : Type} (m : List (String × α)) (k : String) (v : α) :
    (dictInsert m k v).lookup k = some v := by
  unfold dictInsert
  split
  · rename_i h
    induction m with
    | nil => simp at h
    | cons p t ih =>
      rcases p with ⟨a, b⟩
      rw [List.map_cons]
      cases hk : a == k
      · rw [if_neg (by simp [hk])]
        simp only [List.any_cons, hk, Bool.false_or] at h
        have hk2 : (k == a) = false := by
          simp only [beq_eq_false_iff_ne] at hk ⊢
          exact fun hka => hk hka.symm
        simp only [List.lookup, hk2]
        simpa using ih h
      · rw [if_pos (by simp [hk])]
        simp [List.lookup]
  · rename_i h
    rw [lookup_append]
    have : m.lookup k = none := by
      apply lookup_none_of_any_eq_false
      exact Bool.eq_false_iff.mpr (fun hc => h hc)
    simp [this, List.lookup]

theorem lookup_merge_left (es : List (String × String)) (rs : List (String × Contact))
    (k : String) :
    (es.map (fun p => (p.1,
      match rs.lookup p.1 with
      | some c => Value.contact c
      | none => Value.str p.2))).lookup k =
    (es.lookup k).map (fun v =>
      match rs.lookup k with
      | some c => Value.contact c
      | none => Value.str v) := by
  induction es with
  | nil => rfl
  | cons p t ih =>
    rcases p with ⟨a, b⟩
    by_cases hk : k = a
    · subst hk
      simp [List.lookup]
    · have hk2 : (k == a) = false := by simpa using hk
      simp [List.lookup, hk2, ih]

theorem lookup_merge_right (es : List (String × String)) (rs : List (String × Contact))
    (k : String) :
    ((rs.filter (fun p => !(es.any (fun q => q.1 == p.1)))).map
      (fun p => (p.1, Value.contact p.2))).lookup k =
    (if es.any (fun q => q.1 == k) then none else (rs.lookup k).map Value.contact) := by
  induction rs with
  | nil => cases h : es.any (fun q => q.1 == k) <;> simp [List.lookup, h]
  | cons p t ih =>
    rcases p with ⟨a, b⟩
    by_cases hk : k = a
    · subst hk
      cases h : es.any (fun q => q.1 == k) <;>
        simp [List.lookup, List.filter_cons, h, ih]
    · have hk2 : (k == a) = false := by simpa using hk
      cases h : es.any (fun q => q.1 == a) <;>
        simp [List.lookup, List.filter_cons, h, hk2, ih]

theorem mergeEntities_lookup (es : List (String × String)) (rs : List (String × Contact))
    (k : String) :
    (mergeEntities es rs).lookup k =
      (match rs.lookup k with
       | some c => some (Value.contact c)
       | none => (es.lookup k).map Value.str) := by
  unfold mergeEntities
  rw [lookup_append, lookup_merge_left, lookup_merge_right]
  cases hes : es.lookup k with
  | some v =>
    cases hrs : rs.lookup k <;> simp [Option.or]
  | none =>
    have hany := any_eq_false_of_lookup_none k es hes
    cases hrs : rs.lookup k <;> simp [hany, Option.or]

/-! Claim C1: routing after CheckSlots when both the missing list and the
unresolved list are non-empty. -/

/-- Concrete input for C1: `send_message` with only a recipient supplied,
as produced by CheckSlots. -/
def c1Input : AgentState :=
  { current_intent := some { intent := "send_message", entities := [("recipient", "mom")] },
    entities := [("recipient", "mom")] }

/-- C1 counterexample: after CheckSlots on `send_message` with slots
`{recipient: "mom"}`, the missing list and the unresolved list are both
non-empty, yet `route_after_entity_check` returns "resolve", not
"clarify": missing-required-slots does NOT take priority. -/
theorem C1_counterexample :
    (check_entities c1Input).missing_entities = ["message_content"] ∧
    (check_entities c1Input).unresolved_entities = ["recipient"] ∧
    route_after_entity_check (check_entities c1Input) = "resolve" ∧
    route_after_entity_check (check_entities c1Input) ≠ "clarify" := by
  refine ⟨rfl, rfl, rfl, ?_⟩
  decide

/-- C1 (amended): after CheckSlots, when both the missing-required-slot
list and the ambiguous-slot list are non-empty, the engine routes to
Resolve (unresolved slots handled first), not to Clarify: for every state
in which both triggers apply, resolution takes priority over missing. -/
theorem C1_unresolved_takes_priority (s : AgentState)
    (_hm : s.missing_entities ≠ []) (hu : s.unresolved_entities ≠ []) :
    route_after_entity_check s = "resolve" ∧
    route_after_entity_check s ≠ "clarify" := by
  have hr : route_after_entity_check s = "resolve" := by
    unfold route_after_entity_check
    rw [if_pos hu]
  exact ⟨hr, by rw [hr]; decide⟩

/-- C1 witness: the amended routing theorem applied at a concrete state
with both lists non-empty. -/
theorem C1_unresolved_takes_priority_witness :
    route_after_entity_check
      { missing_entities := ["message_content"], unresolved_entities := ["recipient"] } =
      "resolve" :=
  (C1_unresolved_takes_priority
    { missing_entities := ["message_content"], unresolved_entities := ["recipient"] }
    (by decide) (by decide)).1

/-! Claim C2: the clarification counter policy of the Clarify node. -/

/-- Concrete input for C2: a state entering Clarify one question below
the maximum. -/
def c2Input : AgentState :=
  { missing_entities := ["message_content"], clarification_count := 2,
    max_clarifications := 3 }

/-- C2 counterexample: entering Clarify with the counter one below the
maximum increments it to exactly the maximum, but the status is
WAITING_USER_INPUT, not CANCELLED — equality with the maximum does not
force CANCELLED. -/
theorem C2_counterexample :
    (clarify (fun _ _ _ => none) c2Input).clarification_count =
      (clarify (fun _ _ _ => none) c2Input).max_clarifications ∧
    (clarify (fun _ _ _ => none) c2Input).task_status = .WAITING_USER_INPUT ∧
    (clarify (fun _ _ _ => none) c2Input).task_status ≠ .CANCELLED := by
  refine ⟨rfl, rfl, ?_⟩
  decide

/-- C2 (amended): when Clarify is entered with the counter at or above
the maximum it emits the fixed restart message, forces CANCELLED and
leaves the counter unchanged; when entered below the maximum it
increments the counter by exactly one (hence the counter stays at most
the maximum) and sets WAITING_USER_INPUT — even when the new value equals
the maximum, the status is WAITING_USER_INPUT, not CANCELLED. -/
theorem C2_clarify_counter_policy
    (genQ : String → List (String × String) → String → Option String)
    (s : AgentState) :
    (s.clarification_count ≥ s.max_clarifications →
      (clarify genQ s).task_status = .CANCELLED ∧
      (clarify genQ s).response_text = RESTART_MESSAGE ∧
      (clarify genQ s).clarification_count = s.clarification_count) ∧
    (s.clarification_count < s.max_clarifications →
      (clarify genQ s).clarification_count = s.clarification_count + 1 ∧
      (clarify genQ s).clarification_count ≤ s.max_clarifications ∧
      (clarify genQ s).task_status = .WAITING_USER_INPUT) := by
  constructor
  · intro hge
    unfold clarify
    rw [if_pos hge]
    exact ⟨rfl, rfl, rfl⟩
  · intro hlt
    unfold clarify
    rw [if_neg (not_le.mpr hlt)]
    refine ⟨rfl, ?_, rfl⟩
    show s.clarification_count + 1 ≤ s.max_clarifications
    omega

/-- C2 witness: the counter policy applied at concrete states on both
sides of the maximum. -/
theorem C2_clarify_counter_policy_witness :
    (clarify (fun _ _ _ => none) { c2Input with clarification_count := 3 }).task_status =
      .CANCELLED ∧
    (clarify (fun _ _ _ => none) c2Input).clarification_count = 3 :=
  ⟨((C2_clarify_counter_policy (fun _ _ _ => none)
      { c2Input with clarification_count := 3 }).1 (by decide)).1,
   ((C2_clarify_counter_policy (fun _ _ _ => none) c2Input).2 (by decide)).1⟩

/-! Claim C3: the per-candidate-count policy of the EntityResolver. -/

/-- C3 (confirmed): for the slot in the unresolved list that the
resolver processes (a recipient slot with a non-empty value), zero lookup
candidates yields a disambiguation record with an empty candidate list
and the not-found prompt and sets the disambiguation flag; exactly one
candidate writes the candidate into resolved_entities silently with no
disambiguation entry; two or more candidates yields a record with the
full candidate list and sets the flag. -/
theorem C3_resolver_trichotomy
    (lk : String → String → List Contact) (s : AgentState) (v : String)
    (hu : s.unresolved_entities = ["recipient"])
    (hv : s.entities.lookup "recipient" = some v) (hne : v ≠ "") :
    (lk s.user_id v = [] →
      (resolve_entities lk s).disambiguation_options =
        [⟨"recipient", v, [], notFoundMsg v⟩] ∧
      (resolve_entities lk s).needs_user_disambiguation = true ∧
      (resolve_entities lk s).resolved_entities = s.resolved_entities) ∧
    (∀ c, lk s.user_id v = [c] →
      (resolve_entities lk s).resolved_entities =
        dictInsert s.resolved_entities "recipient" c ∧
      (resolve_entities lk s).resolved_entities.lookup "recipient" = some c ∧
      (resolve_entities lk s).disambiguation_options = [] ∧
      (resolve_entities lk s).needs_user_disambiguation = false) ∧
    (∀ c₁ c₂ cs, lk s.user_id v = c₁ :: c₂ :: cs →
      (resolve_entities lk s).disambiguation_options =
        [⟨"recipient", v, c₁ :: c₂ :: cs, multiMsg (c₁ :: c₂ :: cs)⟩] ∧
      (resolve_entities lk s).needs_user_disambiguation = true ∧
      (resolve_entities lk s).resolved_entities = s.resolved_entities) := by
  have hbase : resolve_entities lk s =
      (let acc := resolveStep lk s.user_id s.entities ⟨s.resolved_entities, [], false⟩ "recipient"
       { s with resolved_entities := acc.resolved,
                needs_user_disambiguation := acc.needs,
                disambiguation_options := acc.options,
                unresolved_entities :=
                  if acc.needs then s.unresolved_entities else [] }) := by
    unfold resolve_entities
    rw [hu]
    rw [if_neg (by simp)]
    rfl
  have hstep : resolveStep lk s.user_id s.entities ⟨s.resolved_entities, [], false⟩ "recipient" =
      (match lk s.user_id v with
       | [] => ⟨s.resolved_entities, [⟨"recipient", v, [], notFoundMsg v⟩], true⟩
       | [c] => ⟨dictInsert s.resolved_entities "recipient" c, [], false⟩
       | cs => ⟨s.resolved_entities, [⟨"recipient", v, cs, multiMsg cs⟩], true⟩) := by
    unfold resolveStep
    rw [hv]
    dsimp only
    simp only [Option.getD_some]
    rw [if_pos ⟨trivial, hne⟩]
    rcases hlk : lk s.user_id v with _ | ⟨c, _ | ⟨c2, cs⟩⟩ <;> rfl
  refine ⟨fun h0 => ?_, fun c h1 => ?_, fun c₁ c₂ cs h2 => ?_⟩
  · rw [hbase, hstep, h0]
    exact ⟨rfl, rfl, rfl⟩
  · rw [hbase, hstep, h1]
    exact ⟨rfl, lookup_dictInsert _ _ _, rfl, rfl⟩
  · rw [hbase, hstep, h2]
    exact ⟨rfl, rfl, rfl⟩

/-- Lookup capability for the C3 witness: one candidate for "one". -/
def lkOne : String → String → List Contact := fun _ q =>
  if q = "one" then [⟨"1", "Uno"⟩] else []

/-- Concrete input for the C3 witness. -/
def c3Input : AgentState :=
  { user_id := "u", unresolved_entities := ["recipient"],
    entities := [("recipient", "one")] }

/-- C3 witness: the trichotomy applied at a lookup returning exactly one
candidate. -/
theorem C3_resolver_trichotomy_witness :
    (resolve_entities lkOne c3Input).resolved_entities =
      dictInsert c3Input.resolved_entities "recipient" ⟨"1", "Uno"⟩ ∧
    (resolve_entities lkOne c3Input).resolved_entities.lookup "recipient" =
      some ⟨"1", "Uno"⟩ ∧
    (resolve_entities lkOne c3Input).disambiguation_options = [] ∧
    (resolve_entities lkOne c3Input).needs_user_disambiguation = false :=
  (C3_resolver_trichotomy lkOne c3Input "one" rfl rfl (by decide)).2.1
    ⟨"1", "Uno"⟩ rfl

/-! Claim C4: what CheckSlots computes. -/

theorem check_entities_missing_eq (s : AgentState) :
    (check_entities s).missing_entities =
      ((REQUIRED_ENTITIES.lookup (intentOf s)).getD []).filter
        (fun e => ((s.entities.lookup e).getD "") = "") := by
  unfold check_entities
  dsimp only
  split
  · rfl
  · rename_i h
    split
    · exact (not_not.mp h).symm
    · exact (not_not.mp h).symm

theorem check_entities_unresolved_eq (s : AgentState) :
    (check_entities s).unresolved_entities =
      (s.entities.filter (fun p => p.1 = "recipient")).map Prod.fst := by
  unfold check_entities
  dsimp only
  split
  · rfl
  · rename_i h
    split
    · rfl
    · rename_i h2
      exact (not_not.mp h2).symm

/-- Concrete input for C4: the spec's scenario 2 slot state. -/
def c4Scenario : AgentState :=
  { current_intent := some { intent := "send_message", entities := [("recipient", "mom")] },
    entities := [("recipient", "mom")] }

/-- Concrete input for the C4 counterexample: an empty recipient value. -/
def c4Empty : AgentState :=
  { current_intent := some { intent := "send_message", entities := [("recipient", "")] },
    entities := [("recipient", "")] }

/-- C4 counterexample: a recipient slot whose value is the EMPTY string
is still put on the unresolved list — the code tests only
`isinstance(value, str)`, not non-emptiness, so "exactly the
recipient-style slots that have a non-empty value" is false. -/
theorem C4_counterexample :
    (check_entities c4Empty).unresolved_entities = ["recipient"] ∧
    c4Empty.entities.lookup "recipient" = some "" := by
  exact ⟨rfl, rfl⟩

/-- C4 (amended): CheckSlots computes the missing list as exactly the
required slots of the current intent absent or empty in the slot-value
mapping, in schema-declared order, and the unresolved list as exactly the
recipient-keyed entries of the mapping regardless of whether their value
is empty (re-marked unresolved even if previously resolved); send_message
with only a recipient yields missing = ["message_content"] and status
NEEDS_CLARIFICATION. -/
theorem C4_check_entities_lists (s : AgentState) (e : String) :
    (e ∈ (check_entities s).missing_entities ↔
      e ∈ (REQUIRED_ENTITIES.lookup (intentOf s)).getD [] ∧
        ((s.entities.lookup e).getD "") = "") ∧
    (check_entities s).missing_entities.Sublist
      ((REQUIRED_ENTITIES.lookup (intentOf s)).getD []) ∧
    (e ∈ (check_entities s).unresolved_entities ↔
      e = "recipient" ∧ "recipient" ∈ s.entities.map Prod.fst) ∧
    (check_entities c4Scenario).missing_entities = ["message_content"] ∧
    (check_entities c4Scenario).task_status = .NEEDS_CLARIFICATION := by
  refine ⟨?_, ?_, ?_, rfl, rfl⟩
  · rw [check_entities_missing_eq]
    simp [List.mem_filter]
  · rw [check_entities_missing_eq]
    exact List.filter_sublist _
  · rw [check_entities_unresolved_eq]
    constructor
    · intro he
      obtain ⟨p, hpf, rfl⟩ := List.mem_map.mp he
      have hp := List.mem_filter.mp hpf
      have hk : p.1 = "recipient" := by simpa using hp.2
      exact ⟨hk, List.mem_map.mpr ⟨p, hp.1, hk⟩⟩
    · rintro ⟨rfl, hmem⟩
      obtain ⟨p, hp, hpfst⟩ := List.mem_map.mp hmem
      exact List.mem_map.mpr ⟨p, List.mem_filter.mpr ⟨hp, by simp [hpfst]⟩, hpfst⟩

/-! Claim C5: the dispatch policy of `execute_action`. -/

/-- Concrete input for C5: a `send_message` intent reaching Dispatch. -/
def c5Input : AgentState :=
  { current_intent := some { intent := "send_message" } }

/-- C5 counterexample: the action-error recorded for an unregistered
intent is "No handler for intent: <name>" with a capital N — not the
lower-case "no handler for intent: <name>" the claim states. -/
theorem C5_counterexample :
    (execute_action (fun _ => none) c5Input).action_error =
      some "No handler for intent: send_message" ∧
    (execute_action (fun _ => none) c5Input).action_error ≠
      some "no handler for intent: send_message" := by
  refine ⟨rfl, ?_⟩
  decide

/-- C5 (amended): when no skill is registered for the intent, Dispatch
sets status FAILED with action-error "No handler for intent: <name>";
when the skill raises, the fault is caught and converted to status FAILED
with the error text on action_error; when the skill returns, status is
COMPLETED if and only if the result's success flag is true, otherwise
FAILED. -/
theorem C5_dispatch_policy
    (get_skill : String → Option (String → List (String × Value) → Except String ActionResult))
    (s : AgentState) :
    (get_skill (intentOf s) = none →
      (execute_action get_skill s).task_status = .FAILED ∧
      (execute_action get_skill s).action_error =
        some ("No handler for intent: " ++ intentOf s)) ∧
    (∀ sk e, get_skill (intentOf s) = some sk →
      sk s.user_id (mergeEntities s.entities s.resolved_entities) = .error e →
      (execute_action get_skill s).task_status = .FAILED ∧
      (execute_action get_skill s).action_error = some e) ∧
    (∀ sk r, get_skill (intentOf s) = some sk →
      sk s.user_id (mergeEntities s.entities s.resolved_entities) = .ok r →
      (execute_action get_skill s).action_result = some r ∧
      ((execute_action get_skill s).task_status = .COMPLETED ↔ r.success = true) ∧
      ((execute_action get_skill s).task_status = .FAILED ↔ r.success = false)) := by
  refine ⟨fun h0 => ?_, fun sk e h1 h2 => ?_, fun sk r h1 h2 => ?_⟩
  · unfold execute_action
    dsimp only
    rw [h0]
    exact ⟨rfl, rfl⟩
  · unfold execute_action
    dsimp only
    rw [h1]
    dsimp only
    rw [h2]
    exact ⟨rfl, rfl⟩
  · unfold execute_action
    dsimp only
    rw [h1]
    dsimp only
    rw [h2]
    refine ⟨rfl, ?_, ?_⟩ <;> cases hr : r.success <;> simp [hr]

/-- Skill registry for the C5 witness: every intent mapped to a skill
that succeeds. -/
def regOk : String → Option (String → List (String × Value) → Except String ActionResult) :=
  fun _ => some (fun _ _ => .ok { success := true })

/-- Skill registry for the C5 witness: every intent mapped to a skill
that throws. -/
def regBoom : String → Option (String → List (String × Value) → Except String ActionResult) :=
  fun _ => some (fun _ _ => .error "boom")

/-- C5 witness: the dispatch policy applied at concrete registries
covering the unregistered, throwing and succeeding cases. -/
theorem C5_dispatch_policy_witness :
    (execute_action (fun _ => none) c5Input).task_status = .FAILED ∧
    (execute_action regBoom c5Input).action_error = some "boom" ∧
    (execute_action regOk c5Input).task_status = .COMPLETED :=
  ⟨((C5_dispatch_policy (fun _ => none) c5Input).1 rfl).1,
   ((C5_dispatch_policy regBoom c5Input).2.1 (fun _ _ => .error "boom") "boom" rfl rfl).2,
   (((C5_dispatch_policy regOk c5Input).2.2 (fun _ _ => .ok { success := true })
      { success := true } rfl rfl).2.1).mpr rfl⟩

/-! Claim C6: what the Cancel node clears. -/

/-- Concrete input for C6: a session mid-disambiguation. -/
def c6Input : AgentState :=
  { unresolved_entities := ["recipient"],
    resolved_entities := [("recipient", ⟨"1", "Mom"⟩)],
    needs_user_disambiguation := true,
    disambiguation_options := [⟨"recipient", "mom", [], "msg"⟩] }

/-- C6 counterexample: Cancel does NOT clear the unresolved list, the
resolved mapping, or the disambiguation state — "clears all slot state
(entities, missing, unresolved, resolved, disambiguation)" is false. -/
theorem C6_counterexample :
    (cancel_task c6Input).unresolved_entities = ["recipient"] ∧
    (cancel_task c6Input).resolved_entities = [("recipient", ⟨"1", "Mom"⟩)] ∧
    (cancel_task c6Input).disambiguation_options ≠ [] ∧
    (cancel_task c6Input).needs_user_disambiguation = true := by
  refine ⟨rfl, rfl, ?_, rfl⟩
  decide

/-- C6 (amended): processing a cancel intent unconditionally clears the
current intent, sets status CANCELLED, clears the entities mapping, the
missing list and the clarification counter, sets the fixed cancellation
acknowledgement as the response text, and appends exactly one assistant
entry to the turn sequence — while the unresolved list, the resolved
mapping and the disambiguation state are left untouched. -/
theorem C6_cancel_effects (s : AgentState) :
    (cancel_task s).current_intent = none ∧
    (cancel_task s).task_status = .CANCELLED ∧
    (cancel_task s).entities = [] ∧
    (cancel_task s).missing_entities = [] ∧
    (cancel_task s).clarification_count = 0 ∧
    (cancel_task s).response_text = CANCEL_MESSAGE ∧
    (cancel_task s).messages = s.messages ++ [⟨.assistant, CANCEL_MESSAGE⟩] ∧
    (cancel_task s).messages.length = s.messages.length + 1 ∧
    (cancel_task s).unresolved_entities = s.unresolved_entities ∧
    (cancel_task s).resolved_entities = s.resolved_entities ∧
    (cancel_task s).disambiguation_options = s.disambiguation_options ∧
    (cancel_task s).needs_user_disambiguation = s.needs_user_disambiguation := by
  refine ⟨rfl, rfl, rfl, rfl, rfl, rfl, rfl, ?_, rfl, rfl, rfl, rfl⟩
  simp [cancel_task]

/-! Claim C7: the resolver never mutates `entities`; the dispatch merge
lets resolved values win. -/

/-- C7 (confirmed): for every input state the entities mapping after
`resolve_entities` equals the one before, and the merged mapping handed
to the skill by `execute_action` resolves every key to the resolved value
when one exists, else to the literal entity value. -/
theorem C7_resolver_preserves_entities_merge
    (lk : String → String → List Contact) (s : AgentState)
    (es : List (String × String)) (rs : List (String × Contact)) (k : String) :
    (resolve_entities lk s).entities = s.entities ∧
    (mergeEntities es rs).lookup k =
      (match rs.lookup k with
       | some c => some (Value.contact c)
       | none => (es.lookup k).map Value.str) := by
  refine ⟨?_, mergeEntities_lookup es rs k⟩
  unfold resolve_entities
  split <;> rfl

/-! Claim C8: Compose passes an already-composed session through
unchanged. -/

/-- C8 (confirmed): for every state whose response_text is non-empty,
`generate_response` returns the state unchanged — no overwrite, no extra
assistant message. -/
theorem C8_compose_idempotent (conv : String → List Message → Option String)
    (s : AgentState) (h : s.response_text ≠ "") :
    generate_response conv s = s := by
  unfold generate_response
  rw [if_pos h]

/-- C8 witness: Compose applied to a concrete already-composed state. -/
theorem C8_compose_idempotent_witness :
    generate_response (fun _ _ => none) { response_text := "Dale." } =
      { response_text := "Dale." } :=
  C8_compose_idempotent (fun _ _ => none) { response_text := "Dale." } (by decide)

/-! Claim C9: a successful classification replaces the slot state
wholesale. -/

/-- C9 (confirmed): on a successful classification (non-empty input), the
entities mapping and missing list are replaced wholesale by the guess's
fields, while resolved_entities and the disambiguation state from prior
turns are left untouched. -/
theorem C9_classify_replaces_slots (g : IntentData) (s : AgentState)
    (h : s.current_input ≠ "") :
    (detect_intent (.success g) s).entities = g.entities ∧
    (detect_intent (.success g) s).missing_entities = g.missing ∧
    (detect_intent (.success g) s).current_intent = some g ∧
    (detect_intent (.success g) s).task_status = .INTENT_DETECTED ∧
    (detect_intent (.success g) s).resolved_entities = s.resolved_entities ∧
    (detect_intent (.success g) s).disambiguation_options = s.disambiguation_options ∧
    (detect_intent (.success g) s).needs_user_disambiguation = s.needs_user_disambiguation ∧
    (detect_intent (.success g) s).clarification_count = s.clarification_count := by
  unfold detect_intent
  rw [if_neg h]
  exact ⟨rfl, rfl, rfl, rfl, rfl, rfl, rfl, rfl⟩

/-- C9 witness: a concrete successful classification discarding a
previously accumulated slot value. -/
theorem C9_classify_replaces_slots_witness :
    (detect_intent (.success { intent := "send_message", entities := [("recipient", "ana")] })
      { current_input := "mandale un mensaje a ana",
        entities := [("recipient", "mom"), ("message_content", "hola")] }).entities =
      [("recipient", "ana")] :=
  (C9_classify_replaces_slots { intent := "send_message", entities := [("recipient", "ana")] }
    { current_input := "mandale un mensaje a ana",
      entities := [("recipient", "mom"), ("message_content", "hola")] } (by decide)).1

/-! Claim C10: the open_app path always completes with a reply. -/

theorem system_msg_ne_empty (m : String) :
    (if m = "" then NO_APP_MESSAGE else m) ≠ "" := by
  by_cases h : m = ""
  · rw [if_pos h]
    decide
  · rw [if_neg h]
    exact h

/-- C10 (confirmed): for every launch capability and every input state,
`execute_system_command` ends the turn with status COMPLETED and a
non-empty response text, and records no action error (the field is left
exactly as it was) — even when the app name is empty or unrecognized or
the launch attempt throws. -/
theorem C10_system_control_total (launch : String → Except String Unit)
    (s : AgentState) :
    (execute_system_command launch s).task_status = .COMPLETED ∧
    (execute_system_command launch s).response_text ≠ "" ∧
    (execute_system_command launch s).action_error = s.action_error := by
  refine ⟨rfl, ?_, rfl⟩
  show (if systemResultMsg launch s = "" then NO_APP_MESSAGE
        else systemResultMsg launch s) ≠ ""
  exact system_msg_ne_empty (systemResultMsg launch s)

end LivvOS
